import Mathlib

/-!
Shallow embedding of `src/app.py` (WeatherMCP): a single-session MCP client
with a connect operation, a weather-lookup operation gated on the connection
flag, and a response normalizer for loosely typed tool results.

External collaborators (the SSE transport, the MCP session, the standard
JSON parser) are modelled as oracles supplied through environment records;
the control flow, state updates and every user-visible string are translated
directly from the Python source.
-/

namespace WeatherMCP

/-- JSON values as produced by `json.loads`.  Numbers are modelled as integers
(the payloads the program inspects carry integral temperatures); object fields
are an association list looked up first-match, standing for a Python dict. -/
inductive Json where
  | null : Json
  | bool : Bool → Json
  | num : Int → Json
  | str : String → Json
  | arr : List Json → Json
  | obj : List (String × Json) → Json

/-- Dict key lookup (`k in parsed` / `parsed[k]` / `parsed.get(k)`). -/
def lookupKey : List (String × Json) → String → Option Json
  | [], _ => none
  | (k, v) :: rest, key => if k = key then some v else lookupKey rest key

/-- A tool descriptor as cached from `list_tools` (only the name is used). -/
structure Tool where
  name : String
deriving DecidableEq, Repr

/-- The mutable fields of `SimpleMCPClient`.  `session` and `exitStack`
record whether the corresponding handle is non-`None`. -/
structure ClientState where
  session : Bool
  connected : Bool
  tools : List Tool
  exitStack : Bool
deriving DecidableEq, Repr

/-- `SimpleMCPClient.__init__`. -/
def initialState : ClientState :=
  { session := false, connected := false, tools := [], exitStack := false }

/-- Python `str.strip()` on a character list: drop leading and trailing
whitespace (modelled over the ASCII whitespace characters). -/
def stripChars (cs : List Char) : List Char :=
  ((cs.dropWhile Char.isWhitespace).reverse.dropWhile Char.isWhitespace).reverse

/-- Python `location.strip()`. -/
def pyStrip (s : String) : String := ⟨stripChars s.data⟩

/-- Python `str.lower()` (characterwise, as for the ASCII tool names used here). -/
def pyLower (s : String) : String := ⟨s.data.map Char.toLower⟩

/-- Python `location.split(',', 1)`: split a character list at the first
occurrence of `sep`, returning `none` when `sep` does not occur
(mirroring the guard `if ',' in location`). -/
def splitOnce (sep : Char) : List Char → Option (List Char × List Char)
  | [] => none
  | c :: cs =>
    if c = sep then some ([], cs)
    else
      match splitOnce sep cs with
      | some (l, r) => some (c :: l, r)
      | none => none

/-- Lines 67–71 of `app.py`: split the location on the first comma and trim
both parts; without a comma the city is the trimmed input and the country
is the empty string. -/
def parseLocation (location : String) : String × String :=
  match splitOnce ',' location.data with
  | some (l, r) => (pyStrip (String.mk l), pyStrip (String.mk r))
  | none => (pyStrip location, "")

/-- `needle == hay[:len(needle)]` on character lists. -/
def startsWithL : List Char → List Char → Bool
  | _, [] => true
  | [], _ :: _ => false
  | h :: hs, n :: ns => h = n && startsWithL hs ns

/-- Python substring test `needle in hay` on character lists. -/
def containsSub (needle : List Char) : List Char → Bool
  | [] => needle.isEmpty
  | c :: cs => startsWithL (c :: cs) needle || containsSub needle cs

/-- Line 74: `'weather' in tool.name.lower()`. -/
def toolMatches (t : Tool) : Bool :=
  containsSub "weather".data (pyLower t.name).data

/-- Line 74: `next((tool for tool in self.tools if 'weather' in tool.name.lower()), None)`. -/
def findWeatherTool (tools : List Tool) : Option Tool :=
  tools.find? toolMatches

mutual
/-- Python `repr` of a `json.loads` value (string quoting as Python writes it
for strings without internal quotes; containers render elementwise). -/
def pyRepr : Json → String
  | .null => "None"
  | .bool true => "True"
  | .bool false => "False"
  | .num n => toString n
  | .str s => "\x27" ++ s ++ "\x27"
  | .arr xs => "[" ++ pyReprList xs ++ "]"
  | .obj fs => "\x7b" ++ pyReprFields fs ++ "\x7d"

def pyReprList : List Json → String
  | [] => ""
  | [x] => pyRepr x
  | x :: y :: rest => pyRepr x ++ ", " ++ pyReprList (y :: rest)

def pyReprFields : List (String × Json) → String
  | [] => ""
  | [(k, v)] => "\x27" ++ k ++ "\x27: " ++ pyRepr v
  | (k, v) :: f :: rest =>
    "\x27" ++ k ++ "\x27: " ++ pyRepr v ++ ", " ++ pyReprFields (f :: rest)
end

/-- Python `str` of a `json.loads` value, as interpolated by an f-string:
a string renders as itself, everything else as its `repr`. -/
def pyStr : Json → String
  | .str s => s
  | .null => pyRepr .null
  | .bool b => pyRepr (.bool b)
  | .num n => pyRepr (.num n)
  | .arr xs => pyRepr (.arr xs)
  | .obj fs => pyRepr (.obj fs)

/-- `parsed.get(key, default)` interpolated into an f-string. -/
def dictGetStr (fields : List (String × Json)) (key dflt : String) : String :=
  match lookupKey fields key with
  | some v => pyStr v
  | none => dflt

/-- JSON string escaping as in `json.dumps` (the escapes the payloads here
can contain; `ensure_ascii` escaping of non-ASCII text is not modelled). -/
def escapeJsonChar (c : Char) : String :=
  if c = '"' then "\\\""
  else if c = '\\' then "\\\\"
  else if c = '\n' then "\\n"
  else if c = '\t' then "\\t"
  else if c = '\r' then "\\r"
  else String.mk [c]

/-- A JSON string literal with quotes, as written by `json.dumps`. -/
def jsonQuote (s : String) : String :=
  "\"" ++ String.join (s.data.map escapeJsonChar) ++ "\""

/-- `n` spaces, for `json.dumps(..., indent=2)` layout. -/
def indentStr (n : Nat) : String := ⟨List.replicate n ' '⟩

mutual
/-- `json.dumps(v, indent=2)` rendered at indentation level `ind`. -/
def dumpsVal (ind : Nat) : Json → String
  | .null => "null"
  | .bool true => "true"
  | .bool false => "false"
  | .num n => toString n
  | .str s => jsonQuote s
  | .arr [] => "[]"
  | .arr (x :: xs) =>
    "[\n" ++ indentStr (ind + 2) ++ dumpsVal (ind + 2) x ++ dumpsListTail (ind + 2) xs
      ++ "\n" ++ indentStr ind ++ "]"
  | .obj [] => "\x7b\x7d"
  | .obj ((k, v) :: fs) =>
    "\x7b\n" ++ indentStr (ind + 2) ++ jsonQuote k ++ ": " ++ dumpsVal (ind + 2) v
      ++ dumpsFieldsTail (ind + 2) fs ++ "\n" ++ indentStr ind ++ "\x7d"

def dumpsListTail (ind : Nat) : List Json → String
  | [] => ""
  | x :: xs => ",\n" ++ indentStr ind ++ dumpsVal ind x ++ dumpsListTail ind xs

def dumpsFieldsTail (ind : Nat) : List (String × Json) → String
  | [] => ""
  | (k, v) :: fs =>
    ",\n" ++ indentStr ind ++ jsonQuote k ++ ": " ++ dumpsVal ind v ++ dumpsFieldsTail ind fs
end

/-- One element of a list-shaped `result.content` (lines 86–92).  An item
with a `text` attribute contributes that text (this branch also covers items
that additionally have a `content` attribute, matching the `if`/`elif`
order); an item with only a nested `content` attribute contributes
`str(content_item.content)`, carried here already stringified; an item with
neither contributes its generic `str(content_item)` form. -/
inductive ContentItem where
  | textItem (text : String)
  | nestedItem (contentStr : String)
  | opaqueItem (reprStr : String)
deriving DecidableEq, Repr

/-- The text one item contributes to `content_text`. -/
def extractItem : ContentItem → String
  | .textItem t => t
  | .nestedItem c => c
  | .opaqueItem r => r

/-- The `content_text +=` accumulation loop over a list-shaped content. -/
def extractItems (xs : List ContentItem) : String :=
  xs.foldl (fun acc i => acc ++ extractItem i) ""

/-- The shape of a present `result.content` (lines 84–96): a list of items,
a single non-list object with a `text` attribute, or an arbitrary value
rendered by `str` (whose Python truthiness is carried explicitly). -/
inductive ResultContent where
  | items (xs : List ContentItem)
  | single (text : String)
  | opaqueVal (reprStr : String) (truthy : Bool)
deriving DecidableEq, Repr

/-- Python truthiness of `result.content` (an empty list is falsy; an object
with a `text` attribute is an ordinary truthy object). -/
def ResultContent.isTruthy : ResultContent → Bool
  | .items xs => !xs.isEmpty
  | .single _ => true
  | .opaqueVal _ b => b

/-- A raw tool result: `none` models a result with no (or a `None`/falsy-free)
`content` attribute. -/
def RawResult := Option ResultContent

/-- Lines 83–96: the extraction of `content_text` from the raw result
(`""` when the content is absent or falsy). -/
def extractContent : RawResult → String
  | none => ""
  | some c =>
    if c.isTruthy then
      match c with
      | .items xs => extractItems xs
      | .single t => t
      | .opaqueVal r _ => r
    else ""

/-- The external collaborators of `_get_weather`: the standard JSON parser
(`none` models a `json.JSONDecodeError`), the transport-level
`session.call_tool` (`Except.error` models a raised exception's `str`), and
the text of the `AttributeError` raised when `parsed['current_weather']` is
not a dict and `.get` is called on it. -/
structure Env where
  loads : String → Option Json
  callTool : String → String → String → Except String RawResult
  strAttrErr : Json → String

/-- Lines 101–132: parse `content_text` as JSON and format it.  A non-dict
parse falls through the `isinstance` guard to the raw-result return; parse
failure returns the plain code block. -/
def formatContentText (env : Env) (content_text : String) : String :=
  match env.loads content_text with
  | none => "✅ Weather data:\n```\n" ++ content_text ++ "\n```"
  | some parsed =>
    match parsed with
    | .obj fields =>
      match lookupKey fields "error" with
      | some e => "❌ Error: " ++ pyStr e
      | none =>
        match lookupKey fields "current_weather" with
        | some (.obj weather) =>
          "🌍 **" ++ dictGetStr fields "location" "Unknown" ++ "**\n\n"
            ++ "🌡️ Temperature: " ++ dictGetStr weather "temperature_celsius" "N/A" ++ "°C\n"
            ++ "🌤️ Conditions: " ++ dictGetStr weather "weather_description" "N/A" ++ "\n"
            ++ "💨 Wind: " ++ dictGetStr weather "wind_speed_kmh" "N/A" ++ " km/h\n"
            ++ "💧 Humidity: " ++ dictGetStr weather "humidity_percent" "N/A" ++ "%\n"
        | some w => "❌ Failed to get weather: " ++ env.strAttrErr w
        | none =>
          match lookupKey fields "temperature (°C)" with
          | some _ =>
            "🌍 **" ++ dictGetStr fields "location" "Unknown" ++ "**\n\n"
              ++ "🌡️ Temperature: " ++ dictGetStr fields "temperature (°C)" "N/A" ++ "°C\n"
              ++ "🌤️ Weather Code: " ++ dictGetStr fields "weather_code" "N/A" ++ "\n"
              ++ "🕐 Timezone: " ++ dictGetStr fields "timezone" "N/A" ++ "\n"
              ++ "🕒 Local Time: " ++ dictGetStr fields "local_time" "N/A" ++ "\n"
          | none => "✅ Weather data:\n```json\n" ++ dumpsVal 0 parsed ++ "\n```"
    | _ => "✅ Raw result:\n" ++ content_text

/-- Lines 64–135 (`_get_weather`), instrumented with the list of transport
invocations `(toolName, city, country)` performed by `session.call_tool`. -/
def getWeatherInner (env : Env) (st : ClientState) (location : String) :
    String × List (String × String × String) :=
  let (city, country) := parseLocation location
  match findWeatherTool st.tools with
  | none => ("❌ Weather tool not found on server", [])
  | some tool =>
    match env.callTool tool.name city country with
    | .error e => ("❌ Failed to get weather: " ++ e, [(tool.name, city, country)])
    | .ok result =>
      let content_text := extractContent result
      if content_text = "" then
        ("❌ No content received from server", [(tool.name, city, country)])
      else
        (formatContentText env content_text, [(tool.name, city, country)])

/-- Lines 54–62 (`get_weather`): the connected-flag and empty-input guards
in front of `_get_weather`, with the transport-invocation instrumentation. -/
def get_weather (env : Env) (st : ClientState) (location : String) :
    String × List (String × String × String) :=
  if st.connected = false then
    ("❌ Not connected to server. Click Connect first.", [])
  else if pyStrip location = "" then
    ("❌ Please enter a location (e.g., \x27Berlin, Germany\x27)", [])
  else
    getWeatherInner env st location

/-- Transport-level actions performed during `_connect`: closing the previous
exit stack, opening the new SSE connection, the `initialize` negotiation and
the `list_tools` request. -/
inductive Ev where
  | closeOld
  | openNew
  | initOp
  | listToolsOp
deriving DecidableEq, Repr

/-- Outcomes of the awaited steps of `_connect` (`Except.error` models a
raised exception's `str`): closing the previous stack, entering the
`sse_client` context, entering the `ClientSession` context, `initialize`,
and `list_tools`. -/
structure ConnectEnv where
  acloseRes : Except String Unit
  sseRes : Except String Unit
  sessRes : Except String Unit
  initRes : Except String Unit
  toolsRes : Except String (List Tool)

/-- Lines 29–52 of `_connect`, after the previous stack (if any) was closed:
`self.exit_stack = AsyncExitStack()` has already been applied to `st`. -/
def connectCore (env : ConnectEnv) (st : ClientState) : String × ClientState × List Ev :=
  match env.sseRes with
  | .error e => ("❌ Connection failed: " ++ e, { st with connected := false }, [.openNew])
  | .ok _ =>
    match env.sessRes with
    | .error e => ("❌ Connection failed: " ++ e, { st with connected := false }, [.openNew])
    | .ok _ =>
      let st := { st with session := true }
      match env.initRes with
      | .error e =>
        ("❌ Connection failed: " ++ e, { st with connected := false }, [.openNew, .initOp])
      | .ok _ =>
        match env.toolsRes with
        | .error e =>
          ("❌ Connection failed: " ++ e, { st with connected := false },
            [.openNew, .initOp, .listToolsOp])
        | .ok ts =>
          ("✅ Connected to weather server!\nAvailable tools: "
              ++ String.intercalate ", " (ts.map Tool.name),
            { st with tools := ts, connected := true },
            [.openNew, .initOp, .listToolsOp])

/-- Lines 23–52 (`_connect`): close the previous exit stack when one exists
— a failure there is caught by the same outer `except`, so it aborts the
whole connect — then open and negotiate the new connection. -/
def connectClient (env : ConnectEnv) (st : ClientState) : String × ClientState × List Ev :=
  if st.exitStack then
    match env.acloseRes with
    | .error e => ("❌ Connection failed: " ++ e, { st with connected := false }, [.closeOld])
    | .ok _ =>
      let (m, st', tr) := connectCore env { st with exitStack := true }
      (m, st', .closeOld :: tr)
  else
    let (m, st', tr) := connectCore env { st with exitStack := true }
    (m, st', tr)

/-- `true` exactly on the `.error` outcome of a modelled awaited step. -/
def isErr {α : Type} : Except String α → Bool
  | .error _ => true
  | .ok _ => false

/-- The situations in which some awaited step of `_connect` raises (the
close of a previous stack counts only when a previous stack exists). -/
def connectFails (env : ConnectEnv) (st : ClientState) : Prop :=
  (st.exitStack = true ∧ isErr env.acloseRes = true)
    ∨ isErr env.sseRes = true ∨ isErr env.sessRes = true
    ∨ isErr env.initRes = true ∨ isErr env.toolsRes = true

/-- `Json.obj` recognizer (`isinstance(parsed, dict)`). -/
def Json.isObj : Json → Bool
  | .obj _ => true
  | _ => false

/-! Concrete environments and states used to instantiate the theorems. -/

/-- An environment whose parser accepts nothing and whose transport returns
an empty result. -/
def env0 : Env :=
  { loads := fun _ => none
    callTool := fun _ _ _ => .ok (none : RawResult)
    strAttrErr := fun _ => "" }

/-- A connected state whose tool list has no weather tool. -/
def stNoTool : ClientState :=
  { session := true, connected := true, tools := [⟨"forecast"⟩], exitStack := true }

/-- A connected state with a non-matching tool followed by a weather tool. -/
def stW : ClientState :=
  { session := true, connected := true
    tools := [⟨"forecast"⟩, ⟨"Get_Weather_Info"⟩], exitStack := true }

/-- The payload `{"error": "rate limited", "current_weather": {...}}`. -/
def errPayload : List (String × Json) :=
  [("error", .str "rate limited"),
   ("current_weather", .obj [("temperature_celsius", .num 20)])]

/-- Its source text. -/
def errText : String :=
  "\x7b\"error\": \"rate limited\", \"current_weather\": \x7b\"temperature_celsius\": 20\x7d\x7d"

/-- A parser oracle recognizing `errText`. -/
def envErr : Env :=
  { loads := fun s => if s = errText then some (.obj errPayload) else none
    callTool := fun _ _ _ => .ok (none : RawResult)
    strAttrErr := fun _ => "" }

/-- The payload `{"current_weather": {"temperature_celsius": 20}}`. -/
def cwPayload : List (String × Json) :=
  [("current_weather", .obj [("temperature_celsius", .num 20)])]

/-- Its source text. -/
def cwText : String := "\x7b\"current_weather\": \x7b\"temperature_celsius\": 20\x7d\x7d"

/-- A parser oracle recognizing `cwText`. -/
def envCw : Env :=
  { loads := fun s => if s = cwText then some (.obj cwPayload) else none
    callTool := fun _ _ _ => .ok (none : RawResult)
    strAttrErr := fun _ => "" }

/-- A parser oracle recognizing the non-object payload `5` and the
shapeless object payload `{"x": 1}`. -/
def envMisc : Env :=
  { loads := fun s =>
      if s = "5" then some (.num 5)
      else if s = "\x7b\"x\": 1\x7d" then some (.obj [("x", .num 1)])
      else none
    callTool := fun _ _ _ => .ok (none : RawResult)
    strAttrErr := fun _ => "" }

/-- A connect environment whose release of the previous stack fails. -/
def envCloseFail : ConnectEnv :=
  { acloseRes := .error "close boom", sseRes := .ok (), sessRes := .ok ()
    initRes := .ok (), toolsRes := .ok [⟨"get_weather_info"⟩] }

/-- A connect environment failing at the `list_tools` step. -/
def envToolsFail : ConnectEnv :=
  { acloseRes := .ok (), sseRes := .ok (), sessRes := .ok ()
    initRes := .ok (), toolsRes := .error "stream closed" }

/-- A connect environment where every step succeeds. -/
def envConnOk : ConnectEnv :=
  { acloseRes := .ok (), sseRes := .ok (), sessRes := .ok ()
    initRes := .ok (), toolsRes := .ok [⟨"get_weather_info"⟩] }

/-- A state holding a previous connection resource. -/
def stPrev : ClientState :=
  { session := true, connected := true, tools := [⟨"old_tool"⟩], exitStack := true }

/-! Helper lemmas. -/

lemma splitOnce_of_not_mem (sep : Char) (cs : List Char) (h : sep ∉ cs) :
    splitOnce sep cs = none := by
  induction cs with
  | nil => rfl
  | cons c cs ih =>
    rw [List.mem_cons, not_or] at h
    obtain ⟨h1, h2⟩ := h
    rw [splitOnce, if_neg (fun hc => h1 hc.symm), ih h2]

lemma splitOnce_append (sep : Char) (a b : List Char) (h : sep ∉ a) :
    splitOnce sep (a ++ sep :: b) = some (a, b) := by
  induction a with
  | nil => simp [splitOnce]
  | cons c cs ih =>
    rw [List.mem_cons, not_or] at h
    obtain ⟨h1, h2⟩ := h
    rw [List.cons_append, splitOnce, if_neg (fun hc => h1 hc.symm), ih h2]

lemma strData_append (s t : String) : (s ++ t).data = s.data ++ t.data := by
  cases s; cases t; rfl

lemma extractItems_foldl (xs : List ContentItem) (acc : String) :
    xs.foldl (fun a i => a ++ extractItem i) acc
      = acc ++ String.join (xs.map extractItem) := by
  induction xs generalizing acc with
  | nil => apply String.ext; simp [strData_append]
  | cons x xs ih =>
    rw [List.foldl_cons, ih]
    apply String.ext
    simp [strData_append]

lemma find?_append_first {α : Type} (p : α → Bool) (pre post : List α) (a : α)
    (ha : p a = true) (hpre : ∀ x ∈ pre, p x = false) :
    (pre ++ a :: post).find? p = some a := by
  induction pre with
  | nil => simp [List.find?, ha]
  | cons x xs ih =>
    have hx := hpre x (List.mem_cons_self x xs)
    rw [List.cons_append, List.find?, hx]
    exact ih (fun y hy => hpre y (List.mem_cons_of_mem x hy))

/-! The claims. -/

/-- C1: `get_weather` called while `connected` is false returns the
not-connected error message and performs no transport invocation; called on
a connected client with an empty or whitespace-only location it returns the
empty-input error message, again with no transport invocation. -/
theorem c1_guards_block_io (env : Env) (st : ClientState) (location : String) :
    (st.connected = false →
      get_weather env st location
        = ("❌ Not connected to server. Click Connect first.", []))
  ∧ (st.connected = true → pyStrip location = "" →
      get_weather env st location
        = ("❌ Please enter a location (e.g., \x27Berlin, Germany\x27)", [])) := by
  constructor
  · intro h; simp [get_weather, h]
  · intro h1 h2; simp [get_weather, h1, h2]

/-- Witness for C1: the freshly initialized client, and a connected client
given a whitespace-only location. -/
theorem c1_guards_block_io_witness :
    (initialState.connected = false
      ∧ get_weather env0 initialState "Berlin"
          = ("❌ Not connected to server. Click Connect first.", []))
  ∧ (stW.connected = true ∧ pyStrip "   " = ""
      ∧ get_weather env0 stW "   "
          = ("❌ Please enter a location (e.g., \x27Berlin, Germany\x27)", [])) :=
  ⟨⟨rfl, (c1_guards_block_io env0 initialState "Berlin").1 rfl⟩,
   ⟨rfl, by decide, (c1_guards_block_io env0 stW "   ").2 rfl (by decide)⟩⟩

/-- C4: the location is split at its first comma, the left part stripped is
the city and the right part stripped is the country; a comma-free location
gives the stripped input as city and the empty string as country. -/
theorem c4_parse_location :
    (∀ a b : String, ',' ∉ a.data →
      parseLocation ⟨a.data ++ ',' :: b.data⟩ = (pyStrip a, pyStrip b))
  ∧ (∀ s : String, ',' ∉ s.data → parseLocation s = (pyStrip s, "")) := by
  constructor
  · intro a b h
    simp [parseLocation, splitOnce_append ',' a.data b.data h]
  · intro s h
    simp [parseLocation, splitOnce_of_not_mem ',' s.data h]

/-- Witness for C4 at `"Berlin, Germany"` and `" Tokyo "`. -/
theorem c4_parse_location_witness :
    (',' ∉ "Berlin".data
      ∧ parseLocation ⟨"Berlin".data ++ ',' :: " Germany".data⟩
          = (pyStrip "Berlin", pyStrip " Germany"))
  ∧ (',' ∉ " Tokyo ".data ∧ parseLocation " Tokyo " = (pyStrip " Tokyo ", "")) :=
  ⟨⟨by decide, c4_parse_location.1 "Berlin" " Germany" (by decide)⟩,
   ⟨by decide, c4_parse_location.2 " Tokyo " (by decide)⟩⟩

/-- C6: for a list-shaped content the extracted text is the in-order
concatenation of each item's contribution (its `text` field, the string
form of its nested `content` field, or its generic string form), and on
the claim's three-item list it is `"A" ++ "B" ++ str(thirdItem)`. -/
theorem c6_extract_in_order :
    (∀ xs : List ContentItem,
      extractContent (some (.items xs)) = String.join (xs.map extractItem))
  ∧ ∀ r : String,
      extractContent (some (.items [.textItem "A", .nestedItem "B", .opaqueItem r]))
        = "A" ++ "B" ++ r := by
  constructor
  · intro xs
    cases xs with
    | nil => rfl
    | cons x xs =>
      simp [extractContent, ResultContent.isTruthy, extractItems, extractItems_foldl]
      apply String.ext
      simp [strData_append]
  · intro r
    simp [extractContent, ResultContent.isTruthy, extractItems, extractItems_foldl]
    apply String.ext
    simp [strData_append, extractItem]

/-- C8: on a connected client with a non-blank location, `get_weather`
invokes exactly the first cached tool (in list order) whose lowercased name
contains "weather", passing it the parsed city and country; when no cached
tool matches it returns the tool-not-found error and performs no transport
invocation. -/
theorem c8_first_weather_tool (env : Env) (st : ClientState) (location : String)
    (hc : st.connected = true) (hl : pyStrip location ≠ "") :
    ((∀ t ∈ st.tools, toolMatches t = false) →
      get_weather env st location = ("❌ Weather tool not found on server", []))
  ∧ (∀ pre t post, st.tools = pre ++ t :: post → toolMatches t = true →
      (∀ u ∈ pre, toolMatches u = false) →
      (get_weather env st location).2
        = [(t.name, (parseLocation location).1, (parseLocation location).2)]) := by
  have hgw : get_weather env st location = getWeatherInner env st location := by
    simp [get_weather, hc, hl]
  constructor
  · intro hall
    have hfind : st.tools.find? toolMatches = none := by
      rw [List.find?_eq_none]
      intro x hx
      simp [hall x hx]
    rw [hgw]
    simp [getWeatherInner, findWeatherTool, hfind]
  · intro pre t post htools hmt hpre
    have hfind : st.tools.find? toolMatches = some t := by
      rw [htools]; exact find?_append_first _ pre post t hmt hpre
    rw [hgw]
    rcases hploc : parseLocation location with ⟨c, k⟩
    simp only [getWeatherInner, hploc, findWeatherTool, hfind]
    cases hct : env.callTool t.name c k with
    | error e => simp
    | ok result => simp only []; split <;> simp

/-- Witness for C8: a cache with only "forecast" reports tool-not-found; a
cache with "forecast" then "Get_Weather_Info" invokes the latter. -/
theorem c8_first_weather_tool_witness :
    (stNoTool.connected = true ∧ pyStrip "Berlin" ≠ ""
      ∧ get_weather env0 stNoTool "Berlin"
          = ("❌ Weather tool not found on server", []))
  ∧ (get_weather env0 stW "Berlin, Germany").2
      = [("Get_Weather_Info", (parseLocation "Berlin, Germany").1,
          (parseLocation "Berlin, Germany").2)] := by
  refine ⟨⟨rfl, by decide, ?_⟩, ?_⟩
  · exact (c8_first_weather_tool env0 stNoTool "Berlin" rfl (by decide)).1 (by decide)
  · exact (c8_first_weather_tool env0 stW "Berlin, Germany" rfl (by decide)).2
      [⟨"forecast"⟩] ⟨"Get_Weather_Info"⟩ [] rfl (by decide) (by decide)

/-- C5: a payload parsing to a JSON object with an "error" key is rendered
as the error-prefixed message built from that key's value, regardless of any
other fields (such as a "current_weather" object) being present. -/
theorem c5_error_key_wins (env : Env) (text : String)
    (fields : List (String × Json)) (v : Json)
    (hp : env.loads text = some (.obj fields))
    (he : lookupKey fields "error" = some v) :
    formatContentText env text = "❌ Error: " ++ pyStr v := by
  simp [formatContentText, hp, he]

/-- Witness for C5 on `{"error": "rate limited", "current_weather": ...}`:
the error-prefixed message wins and no weather formatting happens. -/
theorem c5_error_key_wins_witness :
    envErr.loads errText = some (.obj errPayload)
  ∧ lookupKey errPayload "error" = some (.str "rate limited")
  ∧ formatContentText envErr errText = "❌ Error: rate limited" := by
  refine ⟨by simp [envErr], rfl, ?_⟩
  exact c5_error_key_wins envErr errText errPayload (.str "rate limited")
    (by simp [envErr]) rfl

/-- C7: a payload parsing to a JSON object with no "error" key and an
object-valued "current_weather" field is rendered as the fixed multi-line
summary, each sub-field read with default "N/A" (and "Unknown" for the
location); on `{"current_weather": {"temperature_celsius": 20}}` the output
shows `20°C` and `N/A` for conditions, wind and humidity. -/
theorem c7_current_weather_summary (env : Env) (text : String)
    (fields weather : List (String × Json))
    (hp : env.loads text = some (.obj fields))
    (hne : lookupKey fields "error" = none)
    (hw : lookupKey fields "current_weather" = some (.obj weather)) :
    formatContentText env text
      = "🌍 **" ++ dictGetStr fields "location" "Unknown" ++ "**\n\n"
          ++ "🌡️ Temperature: " ++ dictGetStr weather "temperature_celsius" "N/A" ++ "°C\n"
          ++ "🌤️ Conditions: " ++ dictGetStr weather "weather_description" "N/A" ++ "\n"
          ++ "💨 Wind: " ++ dictGetStr weather "wind_speed_kmh" "N/A" ++ " km/h\n"
          ++ "💧 Humidity: " ++ dictGetStr weather "humidity_percent" "N/A" ++ "%\n" := by
  simp [formatContentText, hp, hne, hw]

/-- Witness for C7 on `{"current_weather": {"temperature_celsius": 20}}`. -/
theorem c7_current_weather_summary_witness :
    envCw.loads cwText = some (.obj cwPayload)
  ∧ lookupKey cwPayload "error" = none
  ∧ lookupKey cwPayload "current_weather" = some (.obj [("temperature_celsius", .num 20)])
  ∧ formatContentText envCw cwText
      = "🌍 **Unknown**\n\n🌡️ Temperature: 20°C\n🌤️ Conditions: N/A\n💨 Wind: N/A km/h\n💧 Humidity: N/A%\n" := by
  refine ⟨by simp [envCw], rfl, rfl, ?_⟩
  have h := c7_current_weather_summary envCw cwText cwPayload
    [("temperature_celsius", .num 20)] (by simp [envCw]) rfl rfl
  rw [h]
  rfl

/-- C9 counterexample: the payload `5` parses as JSON (to a non-object
value) and matches none of the three shapes, yet the normalizer returns the
raw-result string, not the pretty-printed JSON code block. -/
theorem c9_counterexample :
    envMisc.loads "5" = some (.num 5)
  ∧ formatContentText envMisc "5" = "✅ Raw result:\n5"
  ∧ formatContentText envMisc "5"
      ≠ "✅ Weather data:\n```json\n" ++ dumpsVal 0 (.num 5) ++ "\n```" := by
  refine ⟨rfl, rfl, ?_⟩
  decide

/-- C9 amended: an extracted payload parsing to a JSON object that matches
none of the error, "current_weather" or alternate-temperature shapes is
pretty-printed inside the generic JSON code block; a payload parsing to a
non-object JSON value instead falls through the `isinstance` guard and is
returned as the raw-result string. -/
theorem c9_generic_fallback (env : Env) (text : String) :
    (∀ fields, env.loads text = some (.obj fields) →
      lookupKey fields "error" = none →
      lookupKey fields "current_weather" = none →
      lookupKey fields "temperature (°C)" = none →
      formatContentText env text
        = "✅ Weather data:\n```json\n" ++ dumpsVal 0 (.obj fields) ++ "\n```")
  ∧ (∀ j, env.loads text = some j → j.isObj = false →
      formatContentText env text = "✅ Raw result:\n" ++ text) := by
  constructor
  · intro fields hp h1 h2 h3
    simp [formatContentText, hp, h1, h2, h3]
  · intro j hp hobj
    cases j <;> simp_all [formatContentText, Json.isObj]

/-- Witness for C9 (amended) on the object `{"x": 1}` and the number `5`. -/
theorem c9_generic_fallback_witness :
    (envMisc.loads "\x7b\"x\": 1\x7d" = some (.obj [("x", .num 1)])
      ∧ formatContentText envMisc "\x7b\"x\": 1\x7d"
          = "✅ Weather data:\n```json\n" ++ dumpsVal 0 (.obj [("x", .num 1)]) ++ "\n```")
  ∧ (envMisc.loads "5" = some (.num 5) ∧ (Json.num 5).isObj = false
      ∧ formatContentText envMisc "5" = "✅ Raw result:\n5") := by
  refine ⟨⟨rfl, ?_⟩, rfl, rfl, ?_⟩
  · exact (c9_generic_fallback envMisc "\x7b\"x\": 1\x7d").1 [("x", .num 1)] rfl rfl rfl rfl
  · exact (c9_generic_fallback envMisc "5").2 (.num 5) rfl rfl

/-- C2: whenever some awaited step of connect raises, the client ends with
`connected = false` and the operation returns the connection-failed error
string built from the exception text — all failure modes become values and
no exception escapes to the caller. -/
theorem c2_connect_failure (env : ConnectEnv) (st : ClientState)
    (h : connectFails env st) :
    (∃ e, (connectClient env st).1 = "❌ Connection failed: " ++ e)
  ∧ (connectClient env st).2.1.connected = false := by
  obtain ⟨ac, ss, se, ini, ts⟩ := env
  obtain ⟨sess, conn, tools, stk⟩ := st
  cases stk <;> cases ac <;> cases ss <;> cases se <;> cases ini <;> cases ts <;>
    first
      | exact ⟨⟨_, rfl⟩, rfl⟩
      | simp [connectFails, isErr] at h

/-- Witness for C2: the `list_tools` step failing on a fresh client. -/
theorem c2_connect_failure_witness :
    connectFails envToolsFail initialState
  ∧ (∃ e, (connectClient envToolsFail initialState).1 = "❌ Connection failed: " ++ e)
  ∧ (connectClient envToolsFail initialState).2.1.connected = false := by
  have hf : connectFails envToolsFail initialState := by
    right; right; right; right; rfl
  exact ⟨hf, (c2_connect_failure envToolsFail initialState hf).1,
    (c2_connect_failure envToolsFail initialState hf).2⟩

/-- C3 counterexample: with a previous connection resource present and a
failing release, connect stops — only the close is attempted, no new
connection is opened, and the connection-failed error is returned. -/
theorem c3_counterexample :
    stPrev.exitStack = true
  ∧ (connectClient envCloseFail stPrev).2.2 = [Ev.closeOld]
  ∧ Ev.openNew ∉ (connectClient envCloseFail stPrev).2.2
  ∧ (connectClient envCloseFail stPrev).1 = "❌ Connection failed: close boom"
  ∧ (connectClient envCloseFail stPrev).2.1.connected = false := by
  refine ⟨rfl, rfl, ?_, rfl, rfl⟩
  decide

/-- C3 amended: when a previous connection resource exists its release is
attempted first, before any new connection is opened; if the release
succeeds the transport trace starts with the close, and if the release
fails the failure is caught and converted to the connection-failed message
with `connected = false`, but the new connection is not opened. -/
theorem c3_release_before_open (env : ConnectEnv) (st : ClientState)
    (h : st.exitStack = true) :
    (∀ e, env.acloseRes = .error e →
      (connectClient env st).2.2 = [Ev.closeOld]
        ∧ (connectClient env st).1 = "❌ Connection failed: " ++ e
        ∧ (connectClient env st).2.1.connected = false)
  ∧ (env.acloseRes = .ok () →
      ∃ rest, (connectClient env st).2.2 = Ev.closeOld :: rest) := by
  constructor
  · intro e he
    refine ⟨?_, ?_, ?_⟩ <;> simp [connectClient, h, he]
  · intro hok
    rcases hcc : connectCore env { st with exitStack := true } with ⟨m, st', tr⟩
    refine ⟨tr, ?_⟩
    simp [connectClient, h, hok, hcc]

/-- Witness for C3 (amended) at `stPrev` under a failing and a succeeding
release. -/
theorem c3_release_before_open_witness :
    (stPrev.exitStack = true
      ∧ envCloseFail.acloseRes = .error "close boom"
      ∧ (connectClient envCloseFail stPrev).2.2 = [Ev.closeOld]
      ∧ (connectClient envCloseFail stPrev).1 = "❌ Connection failed: close boom"
      ∧ (connectClient envCloseFail stPrev).2.1.connected = false)
  ∧ ∃ rest, (connectClient envConnOk stPrev).2.2 = Ev.closeOld :: rest := by
  refine ⟨⟨rfl, rfl, ?_⟩, ?_⟩
  · exact (c3_release_before_open envCloseFail stPrev rfl).1 "close boom" rfl
  · exact (c3_release_before_open envConnOk stPrev rfl).2 rfl

/-- C10: a failing connect leaves the previously cached tool list untouched
while ending with `connected = false`; the stale list cannot cause I/O
because `get_weather` on any disconnected client performs no transport
invocation. -/
theorem c10_failed_connect_frame (env : ConnectEnv) (st : ClientState)
    (h : (connectClient env st).2.1.connected = false) :
    (connectClient env st).2.1.tools = st.tools
  ∧ ∀ (env2 : Env) (st2 : ClientState) (location : String),
      st2.connected = false → (get_weather env2 st2 location).2 = [] := by
  constructor
  · obtain ⟨ac, ss, se, ini, ts⟩ := env
    obtain ⟨sess, conn, tools, stk⟩ := st
    cases stk <;> cases ac <;> cases ss <;> cases se <;> cases ini <;> cases ts <;>
      first | rfl | simp [connectClient, connectCore] at h
  · intro env2 st2 location h2
    simp [get_weather, h2]

/-- Witness for C10: the `list_tools` failure against a client that already
cached a tool list. -/
theorem c10_failed_connect_frame_witness :
    (connectClient envToolsFail stPrev).2.1.connected = false
  ∧ (connectClient envToolsFail stPrev).2.1.tools = stPrev.tools
  ∧ initialState.connected = false
  ∧ (get_weather env0 initialState "Berlin").2 = [] := by
  refine ⟨rfl, ?_, rfl, ?_⟩
  · exact (c10_failed_connect_frame envToolsFail stPrev rfl).1
  · exact (c10_failed_connect_frame envToolsFail stPrev rfl).2 env0 initialState "Berlin" rfl

end WeatherMCP
